import Mathlib

/-!
Verification of the Strangers-2025 health-monitoring service.

The repository ships a React frontend (read directly into the definitions
below for the `HumanScene` body-part generator and the `AlertsModule`
rendering) and documents a FastAPI backend (`main.py`) whose source is not
included; the backend components (SymptomLedger, ConversationContext,
DeviceTelemetryStore, PromptAssembler, RiskAnalysisValidator, ReportCompiler)
are modelled from the specification, as marked on each definition.
-/

namespace HealthMon

/-! ## Data model -/

/-- Modelled from the spec: fixed body-part set (`bodyPart` is an enum from a
fixed body-part set); members taken from the spec scenarios and the frontend
generator's values. -/
def knownBodyParts : List String :=
  ["Head", "Neck", "Back", "Stomach", "Left leg",
   "Right side of the chest", "Left side of the chest"]

/-- Modelled from the spec: SymptomEntry record (message, bodyPart, timestamp,
advice). -/
structure SymptomEntry where
  message : String
  bodyPart : String
  timestamp : Nat
  advice : String
deriving DecidableEq, Repr

/-- Chat role, from the frontend `Message` type (`role: "assistant" | "user"`). -/
inductive Role where
  | user
  | assistant
deriving DecidableEq, Repr

/-- ChatMessage record, from the frontend `Message` type in PromptModule.tsx. -/
structure ChatMessage where
  role : Role
  message : String
  timestamp : Nat
  bodyPart : String
deriving DecidableEq, Repr

/-- Wearable device kind, from the README's fixed four-device list. -/
inductive Device where
  | Smartwatch
  | FitnessBand
  | BloodPressureMonitor
  | SmartScale
deriving DecidableEq, Repr

/-- Modelled from the spec: DeviceSession (timestamp plus a metric-name to
numeric-value mapping). -/
structure DeviceSession where
  timestamp : Nat
  metrics : List (String × Int)
deriving DecidableEq, Repr

/-- Error taxonomy from the spec's error-handling design. -/
inductive AppError where
  | ValidationError
  | ExternalServiceError
  | InvalidStateError
  | StorageError
deriving DecidableEq, Repr

/-! ## ConversationContext (modelled from the spec) -/

/-- Modelled from the spec: ConversationContext state machine with states
`Idle` and `Active(bodyPart)`. -/
inductive CtxState where
  | Idle
  | Active (bodyPart : String)
deriving DecidableEq, Repr

/-- Modelled from the spec: ConversationContext holds the state-machine state
and the rolling chat window. -/
structure ConversationContext where
  state : CtxState
  messages : List ChatMessage
deriving DecidableEq, Repr

/-- Modelled from the spec: `reset(bodyPart)` transitions to `Active(bodyPart)`
and clears the message window to empty, unconditionally. -/
def ConversationContext.reset (_ctx : ConversationContext) (bodyPart : String) :
    ConversationContext :=
  ⟨.Active bodyPart, []⟩

/-! ## DeviceTelemetryStore (modelled from the spec) -/

/-- Modelled from the spec: DeviceTelemetryStore holds the set of registered
devices and per-device time-ordered sessions (kept as an append-only tagged
log). -/
structure DeviceTelemetryStore where
  registered : List Device
  sessions : List (Device × DeviceSession)
deriving DecidableEq, Repr

/-- Modelled from the spec: `register(device)` is idempotent; adding an
already-registered device is a no-op, not an error. -/
def DeviceTelemetryStore.register (s : DeviceTelemetryStore) (d : Device) :
    DeviceTelemetryStore :=
  if d ∈ s.registered then s else { s with registered := s.registered ++ [d] }

/-- Modelled from the spec: `listDevices()` returns the registered device
names. -/
def DeviceTelemetryStore.listDevices (s : DeviceTelemetryStore) : List Device :=
  s.registered

/-! ## Shared application state (modelled from the spec: single process-wide
shared SymptomLedger, ConversationContext and DeviceTelemetryStore) -/

structure AppState where
  ledger : List SymptomEntry
  ctx : ConversationContext
  devices : DeviceTelemetryStore
deriving DecidableEq, Repr

/-- Modelled from the spec: the safe fallback disclaimer string stored as
`advice` when advice generation fails. -/
def fallbackAdvice : String :=
  "Advice is temporarily unavailable. This assistant is not a medical professional; please consult a doctor."

/-- Modelled from the spec: `SymptomLedger.append(message, bodyPart)`.
Rejects empty `message` or unknown `bodyPart` with ValidationError; calls the
external advice-generation service (retried once on failure, so the two
attempts appear as the `advice1`/`advice2` oracle arguments, `none` meaning
the call failed); on total failure stores the safe fallback disclaimer and
reports a recoverable ExternalServiceError alongside the stored entry; always
triggers `ConversationContext.reset(bodyPart)` on success. -/
def appendSymptom (s : AppState) (message bodyPart : String) (timestamp : Nat)
    (advice1 advice2 : Option String) :
    Except AppError (AppState × SymptomEntry × Option AppError) :=
  if message = "" then .error .ValidationError
  else if bodyPart ∉ knownBodyParts then .error .ValidationError
  else
    let adviceAndErr : String × Option AppError :=
      match advice1 with
      | some a => (a, none)
      | none =>
        match advice2 with
        | some a => (a, none)
        | none => (fallbackAdvice, some .ExternalServiceError)
    let entry : SymptomEntry := ⟨message, bodyPart, timestamp, adviceAndErr.1⟩
    .ok ({ s with ledger := s.ledger ++ [entry],
                  ctx := s.ctx.reset bodyPart },
         entry, adviceAndErr.2)

/-- Modelled from the spec: `get_chat_context() → {bodyPart, messages}` reads
the active body part (none while Idle) and the current chat window. -/
def getChatContext (s : AppState) : Option String × List ChatMessage :=
  (match s.ctx.state with
   | .Idle => none
   | .Active b => some b,
   s.ctx.messages)

/-- Modelled from the spec: `ConversationContext.chat(userMessage)`: valid only
in `Active` state (in `Idle`, fails with InvalidStateError); appends the user
message, calls the external chat-completion service (its text is the `reply`
oracle argument), appends the returned assistant message, and returns the full
updated window. No implicit reset occurs. -/
def chat (s : AppState) (userMsg : ChatMessage) (reply : String)
    (replyTs : Nat) : Except AppError (AppState × List ChatMessage) :=
  match s.ctx.state with
  | .Idle => .error .InvalidStateError
  | .Active b =>
    let window := s.ctx.messages ++ [userMsg, ⟨.assistant, reply, replyTs, b⟩]
    .ok ({ s with ctx := ⟨.Active b, window⟩ }, window)

/-! ## PromptAssembler (modelled from the spec) -/

/-- Modelled from the spec: PromptAssembler output is a structured object
holding the active SymptomEntry, the bounded recent chat, and a compact
device summary (one line per summarized device). -/
structure PromptPayload where
  symptom : SymptomEntry
  chatTail : List ChatMessage
  deviceSummary : List String
deriving DecidableEq, Repr

/-- Modelled from the spec: payload size in abstract units — one unit for the
active symptom, one per kept chat message, one per device-summary line. -/
def payloadSize (p : PromptPayload) : Nat :=
  1 + p.chatTail.length + p.deviceSummary.length

/-- Modelled from the spec: PromptAssembler. Keeps only the last `K` chat
messages; if the payload would still exceed the size `bound`, drops oldest
chat messages first, then truncates the device summary, and never drops the
active symptom. -/
def assemblePrompt (symptom : SymptomEntry) (history : List ChatMessage)
    (deviceSummary : List String) (K bound : Nat) : PromptPayload :=
  let recent := history.drop (history.length - K)
  let overflow := (1 + recent.length + deviceSummary.length) - bound
  let chatDrop := min recent.length overflow
  let chatKept := recent.drop chatDrop
  let deviceKept := deviceSummary.take (deviceSummary.length - (overflow - chatDrop))
  ⟨symptom, chatKept, deviceKept⟩

/-! ## RiskAnalysisValidator (modelled from the spec) -/

/-- RiskAssessment record: `disease` (non-empty text) and `risk`
(integer, 0 to 10). -/
structure RiskAssessment where
  disease : String
  risk : Int
deriving DecidableEq, Repr

/-- Modelled from the spec: out-of-range `risk` values are clamped to
[0, 10], not rejected. -/
def clampRisk (r : Int) : Int := max 0 (min 10 r)

/-- ASCII lower-casing of one character, used for the case-insensitive
disease comparison. -/
def lcChar (c : Char) : Char :=
  if 65 ≤ c.toNat ∧ c.toNat ≤ 90 then Char.ofNat (c.toNat + 32) else c

/-- ASCII lower-casing of a string (character-wise `lcChar`), used for the
case-insensitive disease comparison. -/
def lcString (s : String) : String :=
  ⟨s.data.map lcChar⟩

/-- Recursion worker for `dedupRisks`: the fuel argument only bounds the
recursion depth (the list shrinks strictly on each step, so any fuel of at
least the list's length gives the same answer). -/
def dedupRisksF : Nat → List (String × Int) → List (String × Int)
  | _, [] => []
  | 0, _ :: _ => []
  | fuel + 1, (d, r) :: rest =>
    (d, (rest.filter (fun p => lcString p.1 = lcString d)).foldl
          (fun acc p => max acc p.2) r) ::
      dedupRisksF fuel (rest.filter (fun p => lcString p.1 ≠ lcString d))

/-- Modelled from the spec: deduplicate by case-insensitive `disease`,
keeping the highest `risk` on collision (first-occurrence order kept). -/
def dedupRisks (l : List (String × Int)) : List (String × Int) :=
  dedupRisksF l.length l

/-- Modelled from the spec: validation of one parsed model output — a raw
model reply is abstracted as `none` when it fails the structured parse and
`some entries` when it parses. The parsed sequence is accepted only if its
count is within [1, 5] and every `disease` is non-empty; accepted entries get
their risks clamped and are deduplicated case-insensitively. A rejected or
unparseable reply yields `none`, which sends the validator down its
retry-then-degraded path. -/
def attemptParse : Option (List (String × Int)) → Option (List RiskAssessment)
  | none => none
  | some parsed =>
    if parsed.length < 1 ∨ 5 < parsed.length ∨ parsed.any (fun p => p.1 = "")
    then none
    else some ((dedupRisks (parsed.map (fun p => (p.1, clampRisk p.2)))).map
      (fun p => ⟨p.1, p.2⟩))

/-- Modelled from the spec: the corrective instruction appended to the prompt
for the single retry after a total parse failure. -/
def correctiveInstruction : String :=
  " Respond ONLY with a JSON array of objects with fields disease and risk."

/-- Modelled from the spec: validator output — the validated sequence plus a
flag distinguishing a genuine (possibly empty) result from a degraded
could-not-evaluate result. -/
structure RiskAnalysisResult where
  risks : List RiskAssessment
  degraded : Bool
deriving DecidableEq, Repr

/-- Modelled from the spec: RiskAnalysisValidator / `analyze_risk()`. The
external risk-analysis model is the oracle `model`, mapping a prompt to a raw
reply (`none` = unparseable). On total parse failure the model is called once
more with the corrective instruction appended; if the retry also fails, an
empty sequence flagged degraded is returned instead of raising. The second
component counts the model calls made. -/
def analyzeRisk (model : String → Option (List (String × Int)))
    (prompt : String) : RiskAnalysisResult × Nat :=
  match attemptParse (model prompt) with
  | some rs => (⟨rs, false⟩, 1)
  | none =>
    match attemptParse (model (prompt ++ correctiveInstruction)) with
    | some rs => (⟨rs, false⟩, 2)
    | none => (⟨[], true⟩, 2)

/-! ## ReportCompiler (modelled from the spec) -/

/-- The five fixed report sections, in order. -/
inductive SectionKind where
  | summary
  | symptoms
  | deviceTables
  | chatExcerpts
  | disclaimers
deriving DecidableEq, Repr

/-- One compiled report section: its kind and its rendered lines. -/
structure ReportSection where
  kind : SectionKind
  content : List String
deriving DecidableEq, Repr

/-- Modelled from the spec: explicit empty-state placeholder lines. -/
def noDataPlaceholder : String := "No data available"

/-- Modelled from the spec: fixed boilerplate disclaimer text, never
omitted. -/
def disclaimerText : String :=
  "This report is generated automatically and is not a medical diagnosis."

/-- Renders one symptom entry as a report line. -/
def renderSymptom (e : SymptomEntry) : String :=
  e.bodyPart ++ ": " ++ e.message ++ " - " ++ e.advice

/-- Renders one device table header line; a device with no sessions still gets
a table with an explicit no-data placeholder. -/
def renderDeviceTable (store : DeviceTelemetryStore) (d : Device) : String :=
  if (store.sessions.filter (fun p => p.1 = d)).isEmpty
  then reprStr d ++ ": " ++ noDataPlaceholder
  else reprStr d ++ ": " ++ toString (store.sessions.filter (fun p => p.1 = d)).length ++ " sessions"

/-- Renders one chat message as a report excerpt line. -/
def renderChatLine (m : ChatMessage) : String :=
  (match m.role with | .user => "user: " | .assistant => "assistant: ") ++ m.message

/-- Modelled from the spec: ReportCompiler / `get_doctor_report()`. Aggregates,
in fixed section order — Summary (narrative from the external summarization
call, the `summaryText` oracle argument), Symptoms (ledger, chronological),
Device Tables (one per registered device, even if empty), Chat Excerpts (last
`N` messages of the current window), Disclaimers — with every empty source
rendered as an explicit empty-state placeholder, never omitted. -/
def compileReport (s : AppState) (summaryText : String) (N : Nat) :
    List ReportSection :=
  [⟨.summary, [if summaryText = "" then noDataPlaceholder else summaryText]⟩,
   ⟨.symptoms, if s.ledger.isEmpty then [noDataPlaceholder]
               else s.ledger.map renderSymptom⟩,
   ⟨.deviceTables, if s.devices.registered.isEmpty then [noDataPlaceholder]
                   else s.devices.registered.map (renderDeviceTable s.devices)⟩,
   ⟨.chatExcerpts,
     if (s.ctx.messages.drop (s.ctx.messages.length - N)).isEmpty
     then [noDataPlaceholder]
     else (s.ctx.messages.drop (s.ctx.messages.length - N)).map renderChatLine⟩,
   ⟨.disclaimers, [disclaimerText]⟩]

/-! ## Frontend: HumanScene body-part selection
(src/frontend/src/modules/prompt-module/PromptInput.tsx) -/

/-- The module-level `imitateBodyPartSelectGenerator`: an infinite generator
whose n-th produced value this function returns (first value at n = 0). After
the six listed yields it yields "Stomach" forever. -/
def imitateBodyPartSelect : Nat → String
  | 0 => "Right side of the chest"
  | 1 => "Left side of the chest"
  | 2 => "Head"
  | 3 => "Neck"
  | 4 => "Left leg"
  | 5 => "Head"
  | _ => "Stomach"

/-- A click event on the 3D scene; the onClick handler in `HumanScene` reads
nothing from the event, so the coordinates are carried only to show the
selection ignores them. -/
structure ClickEvent where
  x : Int
  y : Int
deriving DecidableEq, Repr

/-- The `HumanScene` onClick handler: when `isDisabled` it does nothing;
otherwise it selects the next generator value (`n` is how many values the
module-level generator has already produced), independent of the click
position. The generator is infinite so its value is never undefined and the
TypeScript `?? null` fallback never fires. -/
def handleSceneClick (isDisabled : Bool) (_e : ClickEvent) (n : Nat) :
    Option String :=
  if isDisabled then none else some (imitateBodyPartSelect n)

/-! ## Frontend: AlertsModule rendering
(src/unnamed/part_001 and src/frontend/src/modules/alerts-module) -/

/-- One `/analize` response entry as typed in AlertsModule. -/
structure Alert where
  risk : Int
  disease : String
deriving DecidableEq, Repr

/-- What the AlertsModule body renders: one card per alert entry, or the two
loading-skeleton placeholder cards. -/
inductive AlertsView where
  | cards (items : List Alert)
  | loadingSkeletons (count : Nat)
deriving DecidableEq, Repr

/-- The `useQuery` default: before any `/analize` data arrives, `data = []`. -/
def alertsDefaultData : List Alert := []

/-- The AlertsModule render: `data.length > 0` maps each entry to a card,
otherwise the two skeleton cards are shown. -/
def renderAlerts (data : List Alert) : AlertsView :=
  if data.length > 0 then .cards data else .loadingSkeletons 2

/-! ## Helper lemmas -/

theorem dedupRisksF_congr (f1 : Nat) :
    ∀ (f2 : Nat) (l : List (String × Int)), l.length ≤ f1 → l.length ≤ f2 →
      dedupRisksF f1 l = dedupRisksF f2 l := by
  induction f1 with
  | zero =>
    intro f2 l h1 h2
    cases l with
    | nil => cases f2 <;> rfl
    | cons hd tl => simp at h1
  | succ f1 ih =>
    intro f2 l h1 h2
    cases l with
    | nil => cases f2 <;> rfl
    | cons hd tl =>
      obtain ⟨d, r⟩ := hd
      cases f2 with
      | zero => simp at h2
      | succ f2 =>
        simp only [List.length_cons] at h1 h2
        simp only [dedupRisksF]
        congr 1
        have hf := List.length_filter_le
          (fun p => decide (lcString p.1 ≠ lcString d)) tl
        exact ih f2 _ (by omega) (by omega)

theorem dedupRisks_cons (d : String) (r : Int) (rest : List (String × Int)) :
    dedupRisks ((d, r) :: rest) =
      (d, (rest.filter (fun p => lcString p.1 = lcString d)).foldl
            (fun acc p => max acc p.2) r) ::
        dedupRisks (rest.filter (fun p => lcString p.1 ≠ lcString d)) := by
  unfold dedupRisks
  simp only [List.length_cons, dedupRisksF]
  congr 1
  exact dedupRisksF_congr rest.length _ _ (List.length_filter_le _ _)
    (le_refl _)

theorem dedupRisks_induction (P : List (String × Int) → Prop) (h0 : P [])
    (h1 : ∀ d r rest,
      P (rest.filter (fun p => lcString p.1 ≠ lcString d)) → P ((d, r) :: rest)) :
    ∀ l, P l := by
  have key : ∀ (n : Nat) (l : List (String × Int)), l.length ≤ n → P l := by
    intro n
    induction n with
    | zero =>
      intro l h
      cases l with
      | nil => exact h0
      | cons hd tl => simp at h
    | succ n ih =>
      intro l h
      cases l with
      | nil => exact h0
      | cons hd tl =>
        obtain ⟨d, r⟩ := hd
        refine h1 d r tl (ih _ ?_)
        have hf := List.length_filter_le
          (fun p => decide (lcString p.1 ≠ lcString d)) tl
        simp only [List.length_cons] at h
        omega
  exact fun l => key l.length l (le_refl _)

theorem dedupRisks_length_le (l : List (String × Int)) :
    (dedupRisks l).length ≤ l.length := by
  refine dedupRisks_induction (fun l => (dedupRisks l).length ≤ l.length)
    (by simp [dedupRisks, dedupRisksF]) ?_ l
  intro d r rest ih
  rw [dedupRisks_cons]
  simp only [List.length_cons]
  exact Nat.succ_le_succ (le_trans ih (List.length_filter_le _ _))

theorem dedupRisks_ne_nil (l : List (String × Int)) (h : l ≠ []) :
    dedupRisks l ≠ [] := by
  match l with
  | (d, r) :: rest =>
    rw [dedupRisks_cons]
    simp

theorem foldl_max_bounds (lo hi : Int) (cl : List (String × Int)) (acc : Int)
    (hacc : lo ≤ acc ∧ acc ≤ hi)
    (hcl : ∀ p ∈ cl, lo ≤ p.2 ∧ p.2 ≤ hi) :
    lo ≤ cl.foldl (fun acc p => max acc p.2) acc ∧
      cl.foldl (fun acc p => max acc p.2) acc ≤ hi := by
  induction cl generalizing acc with
  | nil => simpa using hacc
  | cons p rest ih =>
    refine ih (max acc p.2) ⟨?_, ?_⟩ (fun q hq => hcl q (List.mem_cons_of_mem _ hq))
    · exact le_max_of_le_left hacc.1
    · exact max_le hacc.2 (hcl p (List.mem_cons_self _ _)).2

theorem dedupRisks_snd_bounds (lo hi : Int) (l : List (String × Int))
    (h : ∀ p ∈ l, lo ≤ p.2 ∧ p.2 ≤ hi) :
    ∀ q ∈ dedupRisks l, lo ≤ q.2 ∧ q.2 ≤ hi := by
  revert h
  refine dedupRisks_induction
    (fun l => (∀ p ∈ l, lo ≤ p.2 ∧ p.2 ≤ hi) →
      ∀ q ∈ dedupRisks l, lo ≤ q.2 ∧ q.2 ≤ hi)
    (by simp [dedupRisks, dedupRisksF]) ?_ l
  intro d r rest ih h q hq
  rw [dedupRisks_cons] at hq
  simp only [List.mem_cons] at hq
  rcases hq with hq | hq
  · subst hq
    exact foldl_max_bounds lo hi _ r (h (d, r) (List.mem_cons_self _ _))
      (fun p hp => h p (List.mem_cons_of_mem _ (List.mem_of_mem_filter hp)))
  · exact ih
      (fun p hp => h p (List.mem_cons_of_mem _ (List.mem_of_mem_filter hp)))
      q hq

theorem dedupRisks_fst_mem (l : List (String × Int)) :
    ∀ q ∈ dedupRisks l, q.1 ∈ l.map Prod.fst := by
  refine dedupRisks_induction (fun l => ∀ q ∈ dedupRisks l, q.1 ∈ l.map Prod.fst)
    (by simp [dedupRisks, dedupRisksF]) ?_ l
  intro d r rest ih q hq
  rw [dedupRisks_cons] at hq
  simp only [List.mem_cons] at hq
  rcases hq with hq | hq
  · subst hq
    simp
  · rcases List.mem_map.1 (ih q hq) with ⟨p, hp, hpq⟩
    exact List.mem_map.2
      ⟨p, List.mem_cons_of_mem _ (List.mem_of_mem_filter hp), hpq⟩

theorem dedupRisks_pairwise (l : List (String × Int)) :
    (dedupRisks l).Pairwise (fun a b => lcString a.1 ≠ lcString b.1) := by
  refine dedupRisks_induction
    (fun l => (dedupRisks l).Pairwise (fun a b => lcString a.1 ≠ lcString b.1))
    (by simp [dedupRisks, dedupRisksF]) ?_ l
  intro d r rest ih
  rw [dedupRisks_cons]
  refine List.Pairwise.cons ?_ ih
  intro q hq
  rcases List.mem_map.1 (dedupRisks_fst_mem _ q hq) with ⟨p, hp, hpq⟩
  have := List.of_mem_filter hp
  simp only [decide_eq_true_eq] at this
  rw [hpq] at this
  exact Ne.symm this

theorem clampRisk_bounds (r : Int) : 0 ≤ clampRisk r ∧ clampRisk r ≤ 10 :=
  ⟨le_max_left _ _, max_le (by norm_num) (min_le_left _ _)⟩

theorem attemptParse_sound (raw : Option (List (String × Int)))
    (rs : List RiskAssessment) (h : attemptParse raw = some rs) :
    1 ≤ rs.length ∧ rs.length ≤ 5 ∧
      (∀ r ∈ rs, 0 ≤ r.risk ∧ r.risk ≤ 10) ∧
      rs.Pairwise (fun a b => lcString a.disease ≠ lcString b.disease) := by
  cases raw with
  | none => cases h
  | some parsed =>
    simp only [attemptParse] at h
    split at h
    · cases h
    · next hcond =>
      rw [not_or, not_or] at hcond
      obtain ⟨hlen1, hlen2, -⟩ := hcond
      have hrs := Option.some.inj h
      have hmapped : ∀ p ∈ parsed.map (fun p => (p.1, clampRisk p.2)),
          (0 : Int) ≤ p.2 ∧ p.2 ≤ 10 := by
        intro p hp
        rcases List.mem_map.1 hp with ⟨q, -, rfl⟩
        exact clampRisk_bounds q.2
      have hnil : parsed.map (fun p => (p.1, clampRisk p.2)) ≠ [] := by
        simp only [ne_eq, List.map_eq_nil_iff]
        intro hpn
        rw [hpn] at hlen1
        simp at hlen1
      refine ⟨?_, ?_, ?_, ?_⟩
      · rw [← hrs, List.length_map]
        exact List.length_pos.2 (dedupRisks_ne_nil _ hnil)
      · rw [← hrs, List.length_map]
        calc (dedupRisks (parsed.map (fun p => (p.1, clampRisk p.2)))).length
            ≤ (parsed.map (fun p => (p.1, clampRisk p.2))).length :=
              dedupRisks_length_le _
          _ = parsed.length := List.length_map _ _
          _ ≤ 5 := Nat.le_of_not_lt hlen2
      · intro r hr
        rw [← hrs] at hr
        rcases List.mem_map.1 hr with ⟨p, hp, rfl⟩
        exact dedupRisks_snd_bounds 0 10 _ hmapped p hp
      · rw [← hrs, List.pairwise_map]
        exact dedupRisks_pairwise _

/-! ## Claim theorems -/

/-- Claim C1: for every bodyPart in the fixed body-part set, a successful
`append_symptom(_, b)` followed by `get_chat_context()` yields bodyPart = b
and messages = []; the stored entry's bodyPart is b, the window is cleared to
zero exactly on append (a successful `chat` never leaves the window empty). -/
theorem append_symptom_resets_chat_context
    (s : AppState) (msg b : String) (ts : Nat) (a1 a2 : Option String)
    (s2 : AppState) (e : SymptomEntry) (err : Option AppError)
    (hb : b ∈ knownBodyParts)
    (hok : appendSymptom s msg b ts a1 a2 = .ok (s2, e, err)) :
    getChatContext s2 = (some b, []) ∧ e.bodyPart = b ∧ s2.ctx.messages = [] ∧
      (∀ (t : AppState) (u : ChatMessage) (r : String) (rt : Nat)
         (t2 : AppState) (w : List ChatMessage),
         chat t u r rt = .ok (t2, w) → t2.ctx.messages ≠ []) := by
  by_cases hmsg : msg = ""
  · unfold appendSymptom at hok
    rw [if_pos hmsg] at hok
    cases hok
  · unfold appendSymptom at hok
    rw [if_neg hmsg, if_neg (not_not_intro hb)] at hok
    have hp := Except.ok.inj hok
    have hs2 := congrArg Prod.fst hp
    have he := congrArg (fun q => q.2.1) hp
    simp only at hs2 he
    refine ⟨?_, ?_, ?_, ?_⟩
    · rw [← hs2]
      simp [getChatContext, ConversationContext.reset]
    · rw [← he]
    · rw [← hs2]
      simp [ConversationContext.reset]
    · intro t u r rt t2 w hchat
      unfold chat at hchat
      split at hchat
      · cases hchat
      · have hq := congrArg Prod.fst (Except.ok.inj hchat)
        simp only at hq
        rw [← hq]
        simp

/-- Claim C1 witness: appending "Lower back pain when bending" for "Back" on
the empty initial state leaves the chat context at ("Back", []). -/
theorem append_symptom_resets_chat_context_witness :
    getChatContext ⟨[⟨"Lower back pain when bending", "Back", 0, "Rest"⟩],
      ⟨.Active "Back", []⟩, ⟨[], []⟩⟩ = (some "Back", []) :=
  (append_symptom_resets_chat_context ⟨[], ⟨.Idle, []⟩, ⟨[], []⟩⟩
    "Lower back pain when bending" "Back" 0 (some "Rest") none
    ⟨[⟨"Lower back pain when bending", "Back", 0, "Rest"⟩],
      ⟨.Active "Back", []⟩, ⟨[], []⟩⟩
    ⟨"Lower back pain when bending", "Back", 0, "Rest"⟩ none
    (by decide) rfl).1

/-- Claim C4: in Active state the chat turn appends the user message and the
assistant reply and returns the full updated window (length |w| + 2, last
entry assistant); in Idle state it fails with InvalidStateError and appends
nothing. -/
theorem chat_active_appends_idle_rejects
    (s : AppState) (u : ChatMessage) (reply : String) (rt : Nat) :
    (s.ctx.state = .Idle → chat s u reply rt = .error .InvalidStateError) ∧
    (∀ b, s.ctx.state = .Active b →
      chat s u reply rt =
        .ok ({ s with ctx := ⟨.Active b,
                s.ctx.messages ++ [u, ⟨.assistant, reply, rt, b⟩]⟩ },
             s.ctx.messages ++ [u, ⟨.assistant, reply, rt, b⟩]) ∧
      (s.ctx.messages ++ [u, ⟨.assistant, reply, rt, b⟩]).length =
        s.ctx.messages.length + 2 ∧
      (s.ctx.messages ++ [u, ⟨.assistant, reply, rt, b⟩]).getLast? =
        some ⟨.assistant, reply, rt, b⟩) := by
  constructor
  · intro h
    unfold chat
    rw [h]
  · intro b h
    refine ⟨?_, by simp, ?_⟩
    · unfold chat
      rw [h]
    · rw [show s.ctx.messages ++ [u, (⟨.assistant, reply, rt, b⟩ : ChatMessage)] =
        (s.ctx.messages ++ [u]) ++ [(⟨.assistant, reply, rt, b⟩ : ChatMessage)] by simp]
      exact List.getLast?_concat _

/-- Claim C4 witness: one chat turn on a fresh Active("Back") context returns
a window of length two ending in the assistant reply. -/
theorem chat_active_appends_idle_rejects_witness :
    chat ⟨[], ⟨.Active "Back", []⟩, ⟨[], []⟩⟩
        ⟨.user, "It hurts more at night", 1, "Back"⟩ "Try gentle stretching" 2 =
      .ok (⟨[], ⟨.Active "Back",
              [⟨.user, "It hurts more at night", 1, "Back"⟩,
               ⟨.assistant, "Try gentle stretching", 2, "Back"⟩]⟩, ⟨[], []⟩⟩,
           [⟨.user, "It hurts more at night", 1, "Back"⟩,
            ⟨.assistant, "Try gentle stretching", 2, "Back"⟩]) :=
  ((chat_active_appends_idle_rejects ⟨[], ⟨.Active "Back", []⟩, ⟨[], []⟩⟩
    ⟨.user, "It hurts more at night", 1, "Back"⟩ "Try gentle stretching" 2).2
    "Back" rfl).1

/-- Claim C5: when both advice-generation attempts fail, the symptom entry is
still stored, its advice is the non-empty safe fallback disclaimer, and the
failure is reported as a recoverable ExternalServiceError (the append itself
still succeeds). -/
theorem append_symptom_advice_fallback
    (s : AppState) (msg b : String) (ts : Nat)
    (h1 : msg ≠ "") (h2 : b ∈ knownBodyParts) :
    appendSymptom s msg b ts none none =
      .ok ({ s with ledger := s.ledger ++ [⟨msg, b, ts, fallbackAdvice⟩],
                    ctx := ⟨.Active b, []⟩ },
           ⟨msg, b, ts, fallbackAdvice⟩, some .ExternalServiceError) ∧
    fallbackAdvice ≠ "" := by
  refine ⟨?_, by decide⟩
  unfold appendSymptom
  rw [if_neg h1, if_neg (not_not_intro h2)]
  rfl

/-- Claim C5 witness: appending "Lower back pain" for "Back" with both advice
attempts failing stores the entry with the fallback disclaimer and reports a
recoverable ExternalServiceError. -/
theorem append_symptom_advice_fallback_witness :
    appendSymptom ⟨[], ⟨.Idle, []⟩, ⟨[], []⟩⟩ "Lower back pain" "Back" 3
        none none =
      .ok (⟨[⟨"Lower back pain", "Back", 3, fallbackAdvice⟩],
            ⟨.Active "Back", []⟩, ⟨[], []⟩⟩,
           ⟨"Lower back pain", "Back", 3, fallbackAdvice⟩,
           some .ExternalServiceError) ∧
    fallbackAdvice ≠ "" :=
  append_symptom_advice_fallback ⟨[], ⟨.Idle, []⟩, ⟨[], []⟩⟩
    "Lower back pain" "Back" 3 (by decide) (by decide)

/-- Claim C8: DeviceTelemetryStore.register is idempotent — registering an
already-registered device is a no-op, so a double register leaves
listDevices() identical to a single register. -/
theorem register_device_idempotent (s : DeviceTelemetryStore) (d : Device) :
    (s.register d).register d = s.register d ∧
    ((s.register d).register d).listDevices = (s.register d).listDevices := by
  have h : (s.register d).register d = s.register d := by
    unfold DeviceTelemetryStore.register
    split
    · next h => simp [h]
    · simp
  exact ⟨h, by rw [h]⟩

/-- Claim C2 counterexample: when both the risk model call and its retry fail
to parse, `analyze_risk()` returns the degraded empty sequence, whose length 0
is not between 1 and 5 — the claimed bounds fail as stated. -/
theorem analyze_risk_length_cex :
    ¬(1 ≤ (analyzeRisk (fun _ => none) "analyze").1.risks.length ∧
      (analyzeRisk (fun _ => none) "analyze").1.risks.length ≤ 5) := by
  decide

/-- Claim C2 (amended): every sequence returned by analyze_risk() has length
at most 5; the length is between 1 and 5 whenever the result is not flagged
degraded (the degraded fallback being the empty sequence); every entry's risk
is an integer between 0 and 10; and no two entries share a case-insensitive
disease name. -/
theorem analyze_risk_validated_shape
    (model : String → Option (List (String × Int))) (prompt : String) :
    (analyzeRisk model prompt).1.risks.length ≤ 5 ∧
    ((analyzeRisk model prompt).1.degraded = false →
      1 ≤ (analyzeRisk model prompt).1.risks.length) ∧
    (∀ r ∈ (analyzeRisk model prompt).1.risks, 0 ≤ r.risk ∧ r.risk ≤ 10) ∧
    (analyzeRisk model prompt).1.risks.Pairwise
      (fun a b => lcString a.disease ≠ lcString b.disease) := by
  unfold analyzeRisk
  cases h1 : attemptParse (model prompt) with
  | some rs =>
    simp only
    obtain ⟨l1, l2, l3, l4⟩ := attemptParse_sound _ _ h1
    exact ⟨l2, fun _ => l1, l3, l4⟩
  | none =>
    cases h2 : attemptParse (model (prompt ++ correctiveInstruction)) with
    | some rs =>
      simp only
      obtain ⟨l1, l2, l3, l4⟩ := attemptParse_sound _ _ h2
      exact ⟨l2, fun _ => l1, l3, l4⟩
    | none => simp

/-- Claim C2 witness: a parse with a case-insensitive duplicate and
out-of-range risks yields a non-degraded result of positive length whose kept
entry ⟨Flu, 10⟩ is within bounds. -/
theorem analyze_risk_validated_shape_witness :
    1 ≤ (analyzeRisk (fun _ => some [("Flu", 12), ("flu", 3), ("Cold", -1)])
          "p").1.risks.length ∧
    (0 ≤ (⟨"Flu", (10 : Int)⟩ : RiskAssessment).risk ∧
      (⟨"Flu", (10 : Int)⟩ : RiskAssessment).risk ≤ 10) :=
  ⟨(analyze_risk_validated_shape
      (fun _ => some [("Flu", 12), ("flu", 3), ("Cold", -1)]) "p").2.1
      (by decide),
   (analyze_risk_validated_shape
      (fun _ => some [("Flu", 12), ("flu", 3), ("Cold", -1)]) "p").2.2.1
      ⟨"Flu", 10⟩ (by decide)⟩

/-- Claim C3: when the raw risk output fails to parse, the validator retries
the model call exactly once (two calls total) with the corrective instruction
appended, and if the retry also fails it returns the empty sequence flagged
degraded instead of raising; malformed output never escapes the validator. -/
theorem risk_parse_failure_retries_once_then_degrades
    (model : String → Option (List (String × Int))) (prompt : String)
    (h1 : attemptParse (model prompt) = none) :
    (analyzeRisk model prompt).2 = 2 ∧
    (attemptParse (model (prompt ++ correctiveInstruction)) = none →
      (analyzeRisk model prompt).1 = ⟨[], true⟩) := by
  unfold analyzeRisk
  rw [h1]
  cases h2 : attemptParse (model (prompt ++ correctiveInstruction)) with
  | some rs => simp
  | none => simp

/-- Claim C3 witness: a model that never parses is called twice and yields the
degraded empty result. -/
theorem risk_parse_failure_retries_once_then_degrades_witness :
    (analyzeRisk (fun _ => none) "risk").2 = 2 ∧
    (analyzeRisk (fun _ => none) "risk").1 = ⟨[], true⟩ :=
  ⟨(risk_parse_failure_retries_once_then_degrades (fun _ => none) "risk"
      rfl).1,
   (risk_parse_failure_retries_once_then_degrades (fun _ => none) "risk"
      rfl).2 rfl⟩

/-- Claim C6: the assembled prompt keeps the active symptom untouched, keeps
at most the configured K most recent chat messages (a suffix of the history),
and under the size bound drops oldest chat messages first — the device
summary is truncated only after the chat is emptied. -/
theorem prompt_assembler_bounds (symptom : SymptomEntry)
    (history : List ChatMessage) (deviceSummary : List String) (K bound : Nat) :
    (assemblePrompt symptom history deviceSummary K bound).symptom = symptom ∧
    (assemblePrompt symptom history deviceSummary K bound).chatTail.length ≤ K ∧
    (assemblePrompt symptom history deviceSummary K bound).chatTail <:+ history ∧
    ((assemblePrompt symptom history deviceSummary K bound).deviceSummary ≠
        deviceSummary →
      (assemblePrompt symptom history deviceSummary K bound).chatTail = []) := by
  refine ⟨rfl, ?_, ?_, ?_⟩
  · simp only [assemblePrompt, List.length_drop]
    omega
  · simp only [assemblePrompt]
    exact (List.drop_suffix _ _).trans (List.drop_suffix _ _)
  · simp only [assemblePrompt]
    intro hne
    set recent := history.drop (history.length - K) with hrecent
    set ov := 1 + recent.length + deviceSummary.length - bound with hov
    set cd := min recent.length ov with hcd
    have hlt : deviceSummary.length - (ov - cd) < deviceSummary.length := by
      rcases Nat.lt_or_ge (deviceSummary.length - (ov - cd))
        deviceSummary.length with h | h
      · exact h
      · exact absurd (List.take_of_length_le h) hne
    have hcdlt : cd < ov := by omega
    have hcdeq : cd = recent.length := by
      rcases Nat.le_total recent.length ov with h | h
      · rw [hcd, Nat.min_eq_left h]
      · rw [hcd, Nat.min_eq_right h] at hcdlt
        omega
    rw [hcdeq]
    exact List.drop_length _

/-- Claim C6 witness: with K = 2 and a size bound of 1, three chat messages
and two device-summary lines are trimmed down to an empty chat tail. -/
theorem prompt_assembler_bounds_witness :
    (assemblePrompt ⟨"pain", "Back", 0, "rest"⟩
      [⟨.user, "a", 1, "Back"⟩, ⟨.user, "b", 2, "Back"⟩, ⟨.user, "c", 3, "Back"⟩]
      ["heart rate", "blood pressure"] 2 1).chatTail = [] :=
  (prompt_assembler_bounds ⟨"pain", "Back", 0, "rest"⟩
    [⟨.user, "a", 1, "Back"⟩, ⟨.user, "b", 2, "Back"⟩, ⟨.user, "c", 3, "Back"⟩]
    ["heart rate", "blood pressure"] 2 1).2.2.2 (by decide)

/-- Claim C7: for every state of the stores, the compiled doctor report has
exactly the five sections Summary, Symptoms, Device Tables, Chat Excerpts,
Disclaimers in that order, and no section's content is empty — empty sources
render an explicit placeholder instead of being omitted. -/
theorem doctor_report_sections (s : AppState) (summaryText : String) (N : Nat) :
    (compileReport s summaryText N).map ReportSection.kind =
      [.summary, .symptoms, .deviceTables, .chatExcerpts, .disclaimers] ∧
    ∀ sec ∈ compileReport s summaryText N, sec.content ≠ [] := by
  constructor
  · simp [compileReport]
  · intro sec hsec
    simp only [compileReport, List.mem_cons, List.not_mem_nil, or_false]
      at hsec
    rcases hsec with h | h | h | h | h
    · subst h
      simp
    · subst h
      show (if s.ledger.isEmpty then [noDataPlaceholder]
            else s.ledger.map renderSymptom) ≠ []
      split
      · simp
      · simp_all [List.isEmpty_iff, List.map_eq_nil_iff]
    · subst h
      show (if s.devices.registered.isEmpty then [noDataPlaceholder]
            else s.devices.registered.map (renderDeviceTable s.devices)) ≠ []
      split
      · simp
      · simp_all [List.isEmpty_iff, List.map_eq_nil_iff]
    · subst h
      show (if (s.ctx.messages.drop (s.ctx.messages.length - N)).isEmpty
            then [noDataPlaceholder]
            else (s.ctx.messages.drop (s.ctx.messages.length - N)).map
              renderChatLine) ≠ []
      split
      · simp
      · simp_all [List.isEmpty_iff, List.map_eq_nil_iff]
    · subst h
      simp

/-- Claim C7 witness: with every store empty the report still has the five
sections in order, and its disclaimers section is non-empty. -/
theorem doctor_report_sections_witness :
    (compileReport ⟨[], ⟨.Idle, []⟩, ⟨[], []⟩⟩ "" 3).map ReportSection.kind =
      [.summary, .symptoms, .deviceTables, .chatExcerpts, .disclaimers] ∧
    (⟨.disclaimers, [disclaimerText]⟩ : ReportSection).content ≠ [] :=
  ⟨(doctor_report_sections ⟨[], ⟨.Idle, []⟩, ⟨[], []⟩⟩ "" 3).1,
   (doctor_report_sections ⟨[], ⟨.Idle, []⟩, ⟨[], []⟩⟩ "" 3).2
     ⟨.disclaimers, [disclaimerText]⟩ (by decide)⟩

/-- Claim C9: the HumanScene selection is independent of where the user
clicks: the module-level generator's first six values are the fixed list
below, every later (enabled) click selects "Stomach", an enabled click always
selects the generator value, and a disabled click selects nothing. -/
theorem human_scene_selection_fixed_sequence :
    ([0, 1, 2, 3, 4, 5].map imitateBodyPartSelect =
      ["Right side of the chest", "Left side of the chest", "Head", "Neck",
       "Left leg", "Head"]) ∧
    (∀ n, 6 ≤ n → imitateBodyPartSelect n = "Stomach") ∧
    (∀ (dis : Bool) (e1 e2 : ClickEvent) (n : Nat),
      handleSceneClick dis e1 n = handleSceneClick dis e2 n) ∧
    (∀ (e : ClickEvent) (n : Nat),
      handleSceneClick false e n = some (imitateBodyPartSelect n)) ∧
    (∀ (e : ClickEvent) (n : Nat), handleSceneClick true e n = none) := by
  refine ⟨by decide, ?_, fun dis e1 e2 n => rfl, fun e n => rfl, fun e n => rfl⟩
  intro n hn
  obtain ⟨m, rfl⟩ : ∃ m, n = m + 6 := ⟨n - 6, by omega⟩
  rfl

/-- Claim C9 witness: the seventh click (index 6) selects "Stomach", and two
enabled clicks at different screen positions select the same body part. -/
theorem human_scene_selection_fixed_sequence_witness :
    imitateBodyPartSelect 6 = "Stomach" ∧
    handleSceneClick false ⟨1, 2⟩ 8 = handleSceneClick false ⟨30, 40⟩ 8 :=
  ⟨human_scene_selection_fixed_sequence.2.1 6 (by decide),
   human_scene_selection_fixed_sequence.2.2.1 false ⟨1, 2⟩ ⟨30, 40⟩ 8⟩

/-- Claim C10: AlertsModule renders one card per entry exactly when the
/analize response list is non-empty, and for an empty list it renders the
same two loading skeletons shown before any data arrives (the query default
is the empty list), so an empty result is indistinguishable from loading. -/
theorem alerts_render_cards_iff_nonempty (data : List Alert) :
    (data ≠ [] → renderAlerts data = .cards data) ∧
    (data = [] → renderAlerts data = renderAlerts alertsDefaultData ∧
      renderAlerts data = .loadingSkeletons 2) := by
  constructor
  · intro h
    unfold renderAlerts
    rw [if_pos (List.length_pos.2 h)]
  · intro h
    subst h
    exact ⟨rfl, rfl⟩

/-- Claim C10 witness: one migraine alert renders as one card, and the empty
response renders exactly as the pre-data default. -/
theorem alerts_render_cards_iff_nonempty_witness :
    renderAlerts [⟨4, "migraine"⟩] = .cards [⟨4, "migraine"⟩] ∧
    renderAlerts [] = renderAlerts alertsDefaultData :=
  ⟨(alerts_render_cards_iff_nonempty [⟨4, "migraine"⟩]).1 (by decide),
   ((alerts_render_cards_iff_nonempty []).2 rfl).1⟩

end HealthMon
